import Mathlib

/-!
Verification of the OpenAI provider adapter of the mlflow gateway
(`mlflow/gateway/providers/openai.py`).

The adapter translates canonical chat / completions / embeddings requests
into the provider's wire format, invokes an external Request Sender, and
normalizes the provider's response back into the canonical schema.

Serialized payloads (the output of `jsonable_encoder(payload,
exclude_none=True)`) are embedded as insertion-ordered association lists of
field name / JSON value pairs, with Python-dict semantics for lookup,
assignment, `pop` and `{a, **b}` merging.  Each operation is embedded as a
function that takes the Request Sender as an oracle and returns both the
list of wire calls actually handed to the sender and the operation's result
(`Except` models a raised exception), so "fails before any network call" is
the statement that the recorded list of wire calls is empty.

Numbers are embedded as rationals: the only arithmetic the adapter performs
is `2 * temperature`, which is exact in either representation.
-/

set_option autoImplicit false

namespace MlflowGateway

/-- A JSON-like value appearing in a serialized payload: the image of
`jsonable_encoder` (strings, numbers, booleans, arrays, objects). -/
inductive JValue where
  | str (s : String)
  | num (q : ℚ)
  | bool (b : Bool)
  | arr (elems : List JValue)
  | obj (fields : List (String × JValue))

/-- A serialized payload: a flat, insertion-ordered mapping of field names
to values — a Python dict as produced by `jsonable_encoder(payload,
exclude_none=True)` (fields whose value is unset have been dropped). -/
abbrev Payload := List (String × JValue)

/-- Python dict lookup `d[k]`: the value at the first (and, for a genuine
dict, only) occurrence of key `k`, `none` when `k` is absent (KeyError). -/
def getKey : Payload → String → Option JValue
  | [], _ => none
  | kv :: rest, k => if kv.1 = k then some kv.2 else getKey rest k

/-- Python membership test `k in d`. -/
def hasKey (p : Payload) (k : String) : Bool :=
  (getKey p k).isSome

/-- Python dict assignment `d[k] = v`: update in place when the key exists
(keeping its position), append otherwise. -/
def dictInsert : Payload → String → JValue → Payload
  | [], k, v => [(k, v)]
  | kv :: rest, k, v => if kv.1 = k then (k, v) :: rest else kv :: dictInsert rest k v

/-- Python `d.pop(k)`: the value at `k` together with the mapping with that
entry removed; `none` when `k` is absent (KeyError). -/
def popKey : Payload → String → Option (JValue × Payload)
  | [], _ => none
  | kv :: rest, k =>
    if kv.1 = k then some (kv.2, rest)
    else (popKey rest k).map (fun r => (r.1, kv :: r.2))

/-- Python `{**d, **items}` restricted to what the adapter uses: fold the
entries of `items` into `d` by dict assignment. -/
def dictUpdate (d : Payload) (items : Payload) : Payload :=
  items.foldl (fun acc kv => dictInsert acc kv.1 kv.2) d

/-- Rename a single key through the old-name → new-name table. -/
def renameKey : List (String × String) → String → String
  | [], k => k
  | m :: rest, k => if m.1 = k then m.2 else renameKey rest k

/-- Modelled from the spec: the Key-Renaming Utility `rename_payload_keys`
of `mlflow/gateway/providers/utils.py` (only its caller is in the sources):
"given a flat mapping of field name → value and a table of old-name →
new-name, returns an equivalent mapping with renamed keys, leaving unmapped
keys untouched. No state, no side effects." -/
def rename_payload_keys (payload : Payload) (mapping : List (String × String)) : Payload :=
  payload.map (fun kv => (renameKey mapping kv.1, kv.2))

/-- Python evaluation of `2 * v` for a JSON value `v`: numbers are doubled,
strings and lists are repeated, booleans are promoted to integers; `2 *
dict` raises a TypeError, modelled as `none`. -/
def pyMul2 : JValue → Option JValue
  | .num q => some (.num (2 * q))
  | .str s => some (.str (s ++ s))
  | .arr l => some (.arr (l ++ l))
  | .bool b => some (.num (if b then 2 else 0))
  | .obj _ => none

/-- Modelled from the spec: the route type enum of the gateway config
(`config.py` is not among the sources): chat | completions | embeddings. -/
inductive RouteType where
  | chat
  | completions
  | embeddings
  deriving DecidableEq

/-- Modelled from the spec: the OpenAI provider-specific config variant
(`OpenAIConfig` of the absent `config.py`): a credential, an optional
organization id, and a base URL. -/
structure OpenAIConfig where
  openai_api_key : String
  openai_organization : Option String
  openai_api_base : String
  deriving DecidableEq

/-- Modelled from the spec: provider-specific config is a tagged union of
per-provider variants; `otherProvider` stands for any variant that is not
the OpenAI one (what `isinstance(config.model.config, OpenAIConfig)`
rejects). -/
inductive ProviderSpecificConfig where
  | openai (c : OpenAIConfig)
  | otherProvider (provider : String)
  deriving DecidableEq

/-- Modelled from the spec: the model part of a Route Configuration — the
model identifier and the provider-specific config (absent when the route
was built without one). -/
structure ModelConfig where
  name : String
  config : Option ProviderSpecificConfig
  deriving DecidableEq

/-- Modelled from the spec: the Route Configuration owned by the adapter —
a route type and a model. -/
structure RouteConfig where
  route_type : RouteType
  model : ModelConfig
  deriving DecidableEq

/-- An error surfaced by the adapter instead of a normal return:
`httpException` models a raised `fastapi.HTTPException` (status code and
detail) — the spec's `InvalidParameter`; `keyError` a Python `KeyError` on
a missing payload key; `typeError` the `TypeError` raised on a mismatched
provider config — the spec's `InvalidConfiguration`. -/
inductive GatewayError where
  | httpException (status_code : Nat) (detail : String)
  | keyError (key : String)
  | typeError (detail : String)
  deriving DecidableEq

/-- The constructed adapter (`OpenAIProvider.__init__` on success): the
route config together with the derived immutable state — headers and base
URL. -/
structure OpenAIProvider where
  config : RouteConfig
  openai_config : OpenAIConfig
  headers : List (String × String)
  base_url : String
  deriving DecidableEq

/-- Construction, `OpenAIProvider.__init__`: fail with a TypeError when the
provider-specific config is absent or not the OpenAI variant; otherwise
store the config, an `Authorization: Bearer <key>` header, an
`OpenAI-Organization` header when the organization id is truthy (the
source's `if org := self.openai_config.openai_organization:` — skipped for
`None` and for the empty string alike), and the base URL. -/
def OpenAIProvider.init (config : RouteConfig) : Except GatewayError OpenAIProvider :=
  match config.model.config with
  | some (.openai oc) =>
    .ok
      { config := config
        openai_config := oc
        headers :=
          ("Authorization", "Bearer " ++ oc.openai_api_key) ::
            (match oc.openai_organization with
              | some org => if org = "" then [] else [("OpenAI-Organization", org)]
              | none => [])
        base_url := oc.openai_api_base }
  | _ => .error (.typeError "Invalid config type")

/-- One invocation of the Request Sender (`send_request`): the headers and
base URL handed over, the path, and the composed wire payload. -/
structure WireCall where
  headers : List (String × String)
  base_url : String
  path : String
  payload : Payload

/-- The outcome of one adapter operation: the wire calls actually handed to
the Request Sender (in order), and either the canonical response or the
exception raised. -/
structure CallOutcome (α : Type) where
  sent : List WireCall
  result : Except GatewayError α

/-- The `message` object of one choice in a provider chat response. -/
structure ProviderChatMessage where
  role : String
  content : String
  deriving DecidableEq

/-- One entry of the `choices` list of a provider chat response. -/
structure ProviderChatChoice where
  message : ProviderChatMessage
  finish_reason : String
  index : Nat
  deriving DecidableEq

/-- The `usage` block of a provider chat response. -/
structure ProviderUsage where
  prompt_tokens : Nat
  completion_tokens : Nat
  total_tokens : Nat
  deriving DecidableEq

/-- A provider chat response, in the shape the adapter's normalization
assumes (`model`, `choices`, `usage`). -/
structure ProviderChatResponse where
  model : String
  choices : List ProviderChatChoice
  usage : ProviderUsage
  deriving DecidableEq

/-- One entry of the `data` list of a provider embeddings response. -/
structure ProviderEmbedding where
  embedding : List ℚ
  index : Nat
  deriving DecidableEq

/-- The `usage` block of a provider embeddings response (no
`completion_tokens`). -/
structure ProviderEmbeddingsUsage where
  prompt_tokens : Nat
  total_tokens : Nat
  deriving DecidableEq

/-- A provider embeddings response, in the shape the adapter's
normalization assumes (`model`, `data`, `usage`). -/
structure ProviderEmbeddingsResponse where
  model : String
  data : List ProviderEmbedding
  usage : ProviderEmbeddingsUsage
  deriving DecidableEq

/-- A canonical chat message (role and content), as in `gateway/schemas`. -/
structure ChatMessage where
  role : String
  content : String
  deriving DecidableEq

/-- Per-candidate metadata of a canonical response: the finish reason. -/
structure CandidateMetadata where
  finish_reason : String
  deriving DecidableEq

/-- One candidate of a canonical chat response. -/
structure ChatCandidate where
  message : ChatMessage
  metadata : CandidateMetadata
  deriving DecidableEq

/-- The metadata block shared by every canonical response. -/
structure ResponseMetadata where
  input_tokens : Nat
  output_tokens : Nat
  total_tokens : Nat
  model : String
  route_type : RouteType
  deriving DecidableEq

/-- The canonical chat response (`chat.ResponsePayload`). -/
structure ChatResponsePayload where
  candidates : List ChatCandidate
  metadata : ResponseMetadata
  deriving DecidableEq

/-- One candidate of a canonical completions response. -/
structure CompletionCandidate where
  text : String
  metadata : CandidateMetadata
  deriving DecidableEq

/-- The canonical completions response (`completions.ResponsePayload`). -/
structure CompletionsResponsePayload where
  candidates : List CompletionCandidate
  metadata : ResponseMetadata
  deriving DecidableEq

/-- The canonical embeddings response (`embeddings.ResponsePayload`). -/
structure EmbeddingsResponsePayload where
  embeddings : List (List ℚ)
  metadata : ResponseMetadata
  deriving DecidableEq

/-- The chat operation `OpenAIProvider.chat`, embedded from the source.  The `payload`
argument is the serialized canonical request (after `jsonable_encoder` with
`exclude_none=True`); `send` is the Request Sender oracle.  Steps: reject a
literal `n` with HTTPException 400; rename `candidate_count` → `n`; double
the temperature (a KeyError when the key is absent); compose the wire
payload as `{model: <configured name>, **payload}`; send to
`chat/completions`; normalize choices and usage. -/
def OpenAIProvider.chat (self : OpenAIProvider)
    (send : WireCall → ProviderChatResponse) (payload : Payload) :
    CallOutcome ChatResponsePayload :=
  if hasKey payload "n" then
    { sent := []
      result := .error (.httpException 400
        "Invalid parameter `n`. Use `candidate_count` instead.") }
  else
    let payload1 := rename_payload_keys payload [("candidate_count", "n")]
    match getKey payload1 "temperature" with
    | none => { sent := [], result := .error (.keyError "temperature") }
    | some t =>
      match pyMul2 t with
      | none => { sent := [], result := .error (.typeError "unsupported operand type") }
      | some t2 =>
        let payload2 := dictInsert payload1 "temperature" t2
        let wire : WireCall :=
          { headers := self.headers
            base_url := self.base_url
            path := "chat/completions"
            payload := dictUpdate [("model", .str self.config.model.name)] payload2 }
        let resp := send wire
        { sent := [wire]
          result := .ok
            { candidates := resp.choices.map (fun c =>
                { message := { role := c.message.role, content := c.message.content }
                  metadata := { finish_reason := c.finish_reason } })
              metadata :=
                { input_tokens := resp.usage.prompt_tokens
                  output_tokens := resp.usage.completion_tokens
                  total_tokens := resp.usage.total_tokens
                  model := resp.model
                  route_type := self.config.route_type } } }

/-- The completions operation `OpenAIProvider.completions`, embedded from the source.  Same first
steps as `chat`; then the canonical `prompt` is popped (a KeyError when
absent) and reinserted as the single chat message
`[{role: "user", content: <prompt>}]` under `messages`; the request goes to
the same `chat/completions` path; each candidate's `text` is the choice's
message content. -/
def OpenAIProvider.completions (self : OpenAIProvider)
    (send : WireCall → ProviderChatResponse) (payload : Payload) :
    CallOutcome CompletionsResponsePayload :=
  if hasKey payload "n" then
    { sent := []
      result := .error (.httpException 400
        "Invalid parameter `n`. Use `candidate_count` instead.") }
  else
    let payload1 := rename_payload_keys payload [("candidate_count", "n")]
    match getKey payload1 "temperature" with
    | none => { sent := [], result := .error (.keyError "temperature") }
    | some t =>
      match pyMul2 t with
      | none => { sent := [], result := .error (.typeError "unsupported operand type") }
      | some t2 =>
        let payload2 := dictInsert payload1 "temperature" t2
        match popKey payload2 "prompt" with
        | none => { sent := [], result := .error (.keyError "prompt") }
        | some (promptVal, payload3) =>
          let payload4 := dictInsert payload3 "messages"
            (.arr [.obj [("role", .str "user"), ("content", promptVal)]])
          let wire : WireCall :=
            { headers := self.headers
              base_url := self.base_url
              path := "chat/completions"
              payload := dictUpdate [("model", .str self.config.model.name)] payload4 }
          let resp := send wire
          { sent := [wire]
            result := .ok
              { candidates := resp.choices.map (fun c =>
                  { text := c.message.content
                    metadata := { finish_reason := c.finish_reason } })
                metadata :=
                  { input_tokens := resp.usage.prompt_tokens
                    output_tokens := resp.usage.completion_tokens
                    total_tokens := resp.usage.total_tokens
                    model := resp.model
                    route_type := self.config.route_type } } }

/-- The embeddings operation `OpenAIProvider.embeddings`, embedded from the source: rename `text` →
`input` (no `n` check, no temperature handling), compose the wire payload
with the configured model name, send to `embeddings`, emit the embedding
vectors in provider order with `output_tokens` fixed to 0. -/
def OpenAIProvider.embeddings (self : OpenAIProvider)
    (send : WireCall → ProviderEmbeddingsResponse) (payload : Payload) :
    CallOutcome EmbeddingsResponsePayload :=
  let payload1 := rename_payload_keys payload [("text", "input")]
  let wire : WireCall :=
    { headers := self.headers
      base_url := self.base_url
      path := "embeddings"
      payload := dictUpdate [("model", .str self.config.model.name)] payload1 }
  let resp := send wire
  { sent := [wire]
    result := .ok
      { embeddings := resp.data.map (fun d => d.embedding)
        metadata :=
          { input_tokens := resp.usage.prompt_tokens
            output_tokens := 0
            total_tokens := resp.usage.total_tokens
            model := resp.model
            route_type := self.config.route_type } } }

/-! Concrete instances used to instantiate the theorems below. -/

/-- A well-formed route configuration carrying the OpenAI config variant. -/
def exRouteConfig : RouteConfig :=
  { route_type := .chat
    model :=
      { name := "gpt-4o-mini"
        config := some (.openai
          { openai_api_key := "sk-test"
            openai_organization := none
            openai_api_base := "https://api.openai.com/v1" }) } }

/-- The adapter state produced by constructing from `exRouteConfig`. -/
def exProvider : OpenAIProvider :=
  { config := exRouteConfig
    openai_config :=
      { openai_api_key := "sk-test"
        openai_organization := none
        openai_api_base := "https://api.openai.com/v1" }
    headers := [("Authorization", "Bearer sk-test")]
    base_url := "https://api.openai.com/v1" }

/-- The fixed provider chat response of the spec's round-trip property: one
choice with role `assistant`, content `hi`, finish reason `stop`, usage
13/7/20, model `gpt-x`. -/
def exChatResponse : ProviderChatResponse :=
  { model := "gpt-x"
    choices :=
      [{ message := { role := "assistant", content := "hi" }
         finish_reason := "stop"
         index := 0 }]
    usage := { prompt_tokens := 13, completion_tokens := 7, total_tokens := 20 } }

/-- A Request Sender oracle that always answers with `exChatResponse`. -/
def exChatSend : WireCall → ProviderChatResponse :=
  fun _ => exChatResponse

/-- A fixed provider embeddings response with a nonzero usage block. -/
def exEmbeddingsResponse : ProviderEmbeddingsResponse :=
  { model := "text-embedding-ada-002"
    data := [{ embedding := [1 / 10, -1 / 5], index := 0 }]
    usage := { prompt_tokens := 8, total_tokens := 8 } }

/-- A Request Sender oracle that always answers with
`exEmbeddingsResponse`. -/
def exEmbeddingsSend : WireCall → ProviderEmbeddingsResponse :=
  fun _ => exEmbeddingsResponse

/-- A serialized canonical chat request: one message, temperature 1/2,
candidate count 2. -/
def exChatPayload : Payload :=
  [("messages", .arr [.obj [("role", .str "user"), ("content", .str "hello")]]),
   ("temperature", .num (1 / 2)),
   ("candidate_count", .num 2)]

/-- A serialized canonical completions request with prompt "Say hi". -/
def exCompletionsPayload : Payload :=
  [("prompt", .str "Say hi"),
   ("temperature", .num (1 / 2)),
   ("candidate_count", .num 2)]

/-- A serialized canonical embeddings request. -/
def exEmbeddingsPayload : Payload :=
  [("text", .str "hello world")]

/-- A route configuration whose OpenAI config carries the empty string as
organization id (a present but falsy organization id). -/
def exEmptyOrgRouteConfig : RouteConfig :=
  { route_type := .chat
    model :=
      { name := "m"
        config := some (.openai
          { openai_api_key := "k"
            openai_organization := some ""
            openai_api_base := "b" }) } }

/-- A route configuration with no provider-specific config at all. -/
def exNoConfigRouteConfig : RouteConfig :=
  { route_type := .chat, model := { name := "m", config := none } }

/-- The remainder left by Python `d.pop(k)`: the mapping with the first
entry keyed `k` removed. -/
def eraseKey : Payload → String → Payload
  | [], _ => []
  | kv :: rest, k => if kv.1 = k then rest else kv :: eraseKey rest k

/-- Lookup in a header mapping (first match). -/
def getHeader : List (String × String) → String → Option String
  | [], _ => none
  | kv :: rest, k => if kv.1 = k then some kv.2 else getHeader rest k

/-- Whether an operation result is a raised Python KeyError. -/
def raisedKeyError {α : Type} : Except GatewayError α → Bool
  | .error (.keyError _) => true
  | _ => false

/-- The wire call composed by a successful chat translation of a payload
whose temperature is the number `t`: rename `candidate_count` → `n`,
double the temperature, prepend the configured model name. -/
def chatWireOf (self : OpenAIProvider) (payload : Payload) (t : ℚ) : WireCall :=
  { headers := self.headers
    base_url := self.base_url
    path := "chat/completions"
    payload := dictUpdate [("model", .str self.config.model.name)]
      (dictInsert (rename_payload_keys payload [("candidate_count", "n")])
        "temperature" (.num (2 * t))) }

/-- The normalization the chat operation applies to a provider response. -/
def chatNormalize (rt : RouteType) (resp : ProviderChatResponse) : ChatResponsePayload :=
  { candidates := resp.choices.map (fun c =>
      { message := { role := c.message.role, content := c.message.content }
        metadata := { finish_reason := c.finish_reason } })
    metadata :=
      { input_tokens := resp.usage.prompt_tokens
        output_tokens := resp.usage.completion_tokens
        total_tokens := resp.usage.total_tokens
        model := resp.model
        route_type := rt } }

/-- The wire call composed by a successful completions translation of a
payload whose temperature is the number `t` and whose prompt is `pv`: the
chat translation steps, then the prompt popped and reinserted as a single
user chat message. -/
def completionsWireOf (self : OpenAIProvider) (payload : Payload) (t : ℚ)
    (pv : JValue) : WireCall :=
  { headers := self.headers
    base_url := self.base_url
    path := "chat/completions"
    payload := dictUpdate [("model", .str self.config.model.name)]
      (dictInsert
        (eraseKey
          (dictInsert (rename_payload_keys payload [("candidate_count", "n")])
            "temperature" (.num (2 * t)))
          "prompt")
        "messages" (.arr [.obj [("role", .str "user"), ("content", pv)]])) }

/-- The normalization the completions operation applies to a (chat-shaped)
provider response. -/
def completionsNormalize (rt : RouteType) (resp : ProviderChatResponse) :
    CompletionsResponsePayload :=
  { candidates := resp.choices.map (fun c =>
      { text := c.message.content
        metadata := { finish_reason := c.finish_reason } })
    metadata :=
      { input_tokens := resp.usage.prompt_tokens
        output_tokens := resp.usage.completion_tokens
        total_tokens := resp.usage.total_tokens
        model := resp.model
        route_type := rt } }

/-- The wire call composed by the embeddings translation: rename `text` →
`input`, prepend the configured model name. -/
def embeddingsWireOf (self : OpenAIProvider) (payload : Payload) : WireCall :=
  { headers := self.headers
    base_url := self.base_url
    path := "embeddings"
    payload := dictUpdate [("model", .str self.config.model.name)]
      (rename_payload_keys payload [("text", "input")]) }

/-- The normalization the embeddings operation applies to a provider
response. -/
def embeddingsNormalize (rt : RouteType) (resp : ProviderEmbeddingsResponse) :
    EmbeddingsResponsePayload :=
  { embeddings := resp.data.map (fun d => d.embedding)
    metadata :=
      { input_tokens := resp.usage.prompt_tokens
        output_tokens := 0
        total_tokens := resp.usage.total_tokens
        model := resp.model
        route_type := rt } }

/-! Lemmas about the Python-dict operations. -/

theorem getKey_eq_none_iff (p : Payload) (k : String) :
    getKey p k = none ↔ ∀ kv ∈ p, kv.1 ≠ k := by
  induction p with
  | nil => simp [getKey]
  | cons kv rest ih =>
    by_cases h : kv.1 = k <;> simp [getKey, h, ih]

theorem hasKey_eq_false_iff (p : Payload) (k : String) :
    hasKey p k = false ↔ getKey p k = none := by
  cases h : getKey p k <;> simp [hasKey, h]

theorem not_mem_keys_iff (p : Payload) (k : String) :
    k ∉ p.map Prod.fst ↔ getKey p k = none := by
  rw [getKey_eq_none_iff]
  constructor
  · intro h kv hkv he
    exact h (List.mem_map.mpr ⟨kv, hkv, he⟩)
  · intro h hm
    obtain ⟨kv, hkv, he⟩ := List.mem_map.mp hm
    exact h kv hkv he

theorem getKey_dictInsert_self (p : Payload) (k : String) (v : JValue) :
    getKey (dictInsert p k v) k = some v := by
  induction p with
  | nil => simp [dictInsert, getKey]
  | cons kv rest ih =>
    by_cases h : kv.1 = k <;> simp [dictInsert, getKey, h, ih]

theorem getKey_dictInsert_ne (p : Payload) (k : String) (v : JValue)
    (k2 : String) (h : k2 ≠ k) :
    getKey (dictInsert p k v) k2 = getKey p k2 := by
  induction p with
  | nil =>
    simp only [dictInsert, getKey]
    rw [if_neg (fun h2 : k = k2 => h h2.symm)]
  | cons kv rest ih =>
    by_cases hh : kv.1 = k
    · have hk : ¬k = k2 := fun h2 => h h2.symm
      have hkv : ¬kv.1 = k2 := fun h2 => hk (hh.symm.trans h2)
      rw [dictInsert, if_pos hh]
      simp only [getKey]
      rw [if_neg hk, if_neg hkv]
    · rw [dictInsert, if_neg hh]
      simp only [getKey]
      by_cases hk2 : kv.1 = k2
      · rw [if_pos hk2, if_pos hk2]
      · rw [if_neg hk2, if_neg hk2, ih]

theorem mem_keys_dictInsert (p : Payload) (k : String) (v : JValue) (k2 : String) :
    k2 ∈ (dictInsert p k v).map Prod.fst ↔ k2 = k ∨ k2 ∈ p.map Prod.fst := by
  induction p with
  | nil => simp [dictInsert]
  | cons kv rest ih =>
    by_cases h : kv.1 = k
    · subst h
      simp [dictInsert]
    · simp [dictInsert, h, ih]
      tauto

theorem nodup_keys_dictInsert (p : Payload) (k : String) (v : JValue)
    (hNd : (p.map Prod.fst).Nodup) :
    ((dictInsert p k v).map Prod.fst).Nodup := by
  induction p with
  | nil => simp [dictInsert]
  | cons kv rest ih =>
    simp only [List.map_cons, List.nodup_cons] at hNd
    by_cases h : kv.1 = k
    · subst h
      simpa [dictInsert] using hNd
    · simp only [dictInsert, h, if_false, List.map_cons, List.nodup_cons]
      refine ⟨?_, ih hNd.2⟩
      rw [mem_keys_dictInsert]
      rintro (rfl | hmem)
      · exact h rfl
      · exact hNd.1 hmem

theorem rename_single_cons (a b : String) (kv : String × JValue) (rest : Payload) :
    rename_payload_keys (kv :: rest) [(a, b)] =
      (if a = kv.1 then b else kv.1, kv.2) :: rename_payload_keys rest [(a, b)] := rfl

theorem getKey_cons (kv : String × JValue) (rest : Payload) (k : String) :
    getKey (kv :: rest) k = if kv.1 = k then some kv.2 else getKey rest k := rfl

theorem getKey_rename_single_other (p : Payload) (a b k : String)
    (hka : k ≠ a) (hkb : k ≠ b) :
    getKey (rename_payload_keys p [(a, b)]) k = getKey p k := by
  induction p with
  | nil => rfl
  | cons kv rest ih =>
    rw [rename_single_cons, getKey_cons, getKey_cons, ih]
    by_cases h : a = kv.1
    · have hkv : ¬kv.1 = k := fun h2 => hka (h.trans h2).symm
      have hbk : ¬b = k := fun h2 => hkb h2.symm
      simp [h, hkv, hbk]
    · simp [h]

theorem getKey_rename_single_target (p : Payload) (a b : String)
    (hb : getKey p b = none) :
    getKey (rename_payload_keys p [(a, b)]) b = getKey p a := by
  induction p with
  | nil => rfl
  | cons kv rest ih =>
    rw [getKey_cons] at hb
    by_cases hkb : kv.1 = b
    · simp [hkb] at hb
    · rw [if_neg hkb] at hb
      rw [rename_single_cons, getKey_cons, getKey_cons, ih hb]
      by_cases h : a = kv.1
      · simp [h]
      · have hka : ¬kv.1 = a := fun h2 => h h2.symm
        simp [h, hkb, hka]

theorem getKey_rename_single_source (p : Payload) (a b : String)
    (hab : b ≠ a) :
    getKey (rename_payload_keys p [(a, b)]) a = none := by
  induction p with
  | nil => rfl
  | cons kv rest ih =>
    rw [rename_single_cons, getKey_cons, ih]
    by_cases h : a = kv.1
    · have hbk : ¬b = kv.1 := h ▸ hab
      simp [h, hbk]
    · have hka : ¬kv.1 = a := fun h2 => h h2.symm
      simp [h, hka]

theorem nodup_keys_rename_single (p : Payload) (a b : String)
    (hb : getKey p b = none) (hNd : (p.map Prod.fst).Nodup) :
    ((rename_payload_keys p [(a, b)]).map Prod.fst).Nodup := by
  induction p with
  | nil => simp [rename_payload_keys]
  | cons kv rest ih =>
    rw [getKey_cons] at hb
    simp only [List.map_cons, List.nodup_cons] at hNd
    by_cases hkb : kv.1 = b
    · simp [hkb] at hb
    · rw [if_neg hkb] at hb
      rw [rename_single_cons]
      simp only [List.map_cons, List.nodup_cons]
      refine ⟨?_, ih hb hNd.2⟩
      intro hmem
      obtain ⟨kv2, hkv2, he⟩ := List.mem_map.mp hmem
      simp only [rename_payload_keys, List.mem_map] at hkv2
      obtain ⟨kv3, hkv3, rfl⟩ := hkv2
      simp only [renameKey] at he
      by_cases h2 : a = kv3.1
      · rw [if_pos h2] at he
        by_cases h : a = kv.1
        · rw [if_pos h] at he
          exact hNd.1 (List.mem_map.mpr ⟨kv3, hkv3, h2.symm.trans h⟩)
        · rw [if_neg h] at he
          exact hkb he.symm
      · rw [if_neg h2] at he
        by_cases h : a = kv.1
        · rw [if_pos h] at he
          exact (getKey_eq_none_iff rest b).mp hb kv3 hkv3 he
        · rw [if_neg h] at he
          exact hNd.1 (List.mem_map.mpr ⟨kv3, hkv3, he⟩)

theorem popKey_eq_of_getKey (p : Payload) (k : String) (v : JValue)
    (h : getKey p k = some v) :
    popKey p k = some (v, eraseKey p k) := by
  induction p with
  | nil => simp [getKey] at h
  | cons kv rest ih =>
    rw [getKey_cons] at h
    by_cases hh : kv.1 = k
    · rw [if_pos hh] at h
      simp only [Option.some.injEq] at h
      simp [popKey, eraseKey, hh, h]
    · rw [if_neg hh] at h
      simp [popKey, eraseKey, hh, ih h]

theorem getKey_eraseKey_ne (p : Payload) (k k2 : String) (h : k2 ≠ k) :
    getKey (eraseKey p k) k2 = getKey p k2 := by
  induction p with
  | nil => rfl
  | cons kv rest ih =>
    by_cases hh : kv.1 = k
    · rw [eraseKey, if_pos hh, getKey_cons,
        if_neg (fun h2 : kv.1 = k2 => h (h2.symm.trans hh))]
    · rw [eraseKey, if_neg hh, getKey_cons, getKey_cons, ih]

theorem mem_keys_eraseKey (p : Payload) (k k2 : String)
    (h : k2 ∈ (eraseKey p k).map Prod.fst) : k2 ∈ p.map Prod.fst := by
  induction p with
  | nil => simp [eraseKey] at h
  | cons kv rest ih =>
    by_cases hh : kv.1 = k
    · rw [eraseKey, if_pos hh] at h
      simp only [List.map_cons, List.mem_cons]
      exact Or.inr h
    · rw [eraseKey, if_neg hh] at h
      simp only [List.map_cons, List.mem_cons] at h ⊢
      exact h.imp id ih

theorem nodup_keys_eraseKey (p : Payload) (k : String)
    (hNd : (p.map Prod.fst).Nodup) :
    ((eraseKey p k).map Prod.fst).Nodup := by
  induction p with
  | nil => simp [eraseKey]
  | cons kv rest ih =>
    simp only [List.map_cons, List.nodup_cons] at hNd
    by_cases hh : kv.1 = k
    · rw [eraseKey, if_pos hh]
      exact hNd.2
    · rw [eraseKey, if_neg hh]
      simp only [List.map_cons, List.nodup_cons]
      exact ⟨fun hm => hNd.1 (mem_keys_eraseKey rest k kv.1 hm), ih hNd.2⟩

theorem getKey_eraseKey_self (p : Payload) (k : String)
    (hNd : (p.map Prod.fst).Nodup) :
    getKey (eraseKey p k) k = none := by
  induction p with
  | nil => rfl
  | cons kv rest ih =>
    simp only [List.map_cons, List.nodup_cons] at hNd
    by_cases hh : kv.1 = k
    · rw [eraseKey, if_pos hh]
      exact (not_mem_keys_iff rest k).mp (hh ▸ hNd.1)
    · rw [eraseKey, if_neg hh]
      simp only [getKey]
      rw [if_neg hh, ih hNd.2]

theorem getKey_dictUpdate_of_none (q : Payload) (d : Payload) (k : String)
    (h : getKey q k = none) :
    getKey (dictUpdate d q) k = getKey d k := by
  induction q generalizing d with
  | nil => rfl
  | cons kv rest ih =>
    simp only [getKey] at h
    by_cases hh : kv.1 = k
    · rw [if_pos hh] at h
      exact absurd h (by simp)
    · rw [if_neg hh] at h
      rw [dictUpdate, List.foldl_cons]
      have := ih (dictInsert d kv.1 kv.2) h
      rw [dictUpdate] at this
      rw [this, getKey_dictInsert_ne d kv.1 kv.2 k (fun h2 => hh h2.symm)]

theorem getKey_dictUpdate_of_some (q : Payload) (d : Payload) (k : String) (v : JValue)
    (hNd : (q.map Prod.fst).Nodup) (h : getKey q k = some v) :
    getKey (dictUpdate d q) k = some v := by
  induction q generalizing d with
  | nil => simp [getKey] at h
  | cons kv rest ih =>
    simp only [List.map_cons, List.nodup_cons] at hNd
    simp only [getKey] at h
    rw [dictUpdate, List.foldl_cons]
    by_cases hh : kv.1 = k
    · rw [if_pos hh] at h
      have hrest : getKey rest k = none := (not_mem_keys_iff rest k).mp (hh ▸ hNd.1)
      have := getKey_dictUpdate_of_none rest (dictInsert d kv.1 kv.2) k hrest
      rw [dictUpdate] at this
      rw [this, hh, getKey_dictInsert_self, h]
    · rw [if_neg hh] at h
      have := ih (dictInsert d kv.1 kv.2) hNd.2 h
      rw [dictUpdate] at this
      rw [this]

theorem getKey_dictUpdate_singleton_ne (km : String) (v : JValue) (q : Payload)
    (hNd : (q.map Prod.fst).Nodup) (k : String) (hk : k ≠ km) :
    getKey (dictUpdate [(km, v)] q) k = getKey q k := by
  cases h : getKey q k with
  | none =>
    rw [getKey_dictUpdate_of_none q _ k h]
    simp only [getKey]
    rw [if_neg (fun h2 : km = k => hk h2.symm)]
  | some w => exact getKey_dictUpdate_of_some q _ k w hNd h

theorem getKey_dictUpdate_singleton_self (km : String) (v : JValue) (q : Payload)
    (h : getKey q km = none) :
    getKey (dictUpdate [(km, v)] q) km = some v := by
  rw [getKey_dictUpdate_of_none q _ km h]
  simp [getKey]

theorem popKey_some_elim (p : Payload) (k : String) (v : JValue) (p2 : Payload)
    (h : popKey p k = some (v, p2)) :
    getKey p k = some v ∧ p2 = eraseKey p k := by
  induction p generalizing p2 with
  | nil => simp [popKey] at h
  | cons kv rest ih =>
    by_cases hh : kv.1 = k
    · rw [popKey, if_pos hh] at h
      simp only [Option.some.injEq, Prod.mk.injEq] at h
      rw [getKey_cons, if_pos hh, eraseKey, if_pos hh]
      exact ⟨by rw [h.1], h.2.symm⟩
    · rw [popKey, if_neg hh] at h
      cases hrest : popKey rest k with
      | none => rw [hrest] at h; simp at h
      | some r =>
        rw [hrest] at h
        cases r with
        | mk rv rrest =>
          simp only [Option.map_some', Option.some.injEq, Prod.mk.injEq] at h
          have hr : popKey rest k = some (v, rrest) := by rw [hrest, h.1]
          have := ih rrest hr
          rw [getKey_cons, if_neg hh, eraseKey, if_neg hh]
          exact ⟨this.1, by rw [← h.2, this.2]⟩

theorem popKey_eq_none (p : Payload) (k : String)
    (h : getKey p k = none) : popKey p k = none := by
  induction p with
  | nil => rfl
  | cons kv rest ih =>
    rw [getKey_cons] at h
    by_cases hh : kv.1 = k
    · simp [hh] at h
    · rw [if_neg hh] at h
      simp [popKey, hh, ih h]

/-! Characterizations of the three operations on well-formed inputs. -/

theorem chat_run (self : OpenAIProvider) (send : WireCall → ProviderChatResponse)
    (payload : Payload) (t : ℚ)
    (hN : hasKey payload "n" = false)
    (hT : getKey payload "temperature" = some (JValue.num t)) :
    OpenAIProvider.chat self send payload =
      { sent := [chatWireOf self payload t]
        result := .ok (chatNormalize self.config.route_type
          (send (chatWireOf self payload t))) } := by
  have h1 : getKey (rename_payload_keys payload [("candidate_count", "n")]) "temperature"
      = some (JValue.num t) := by
    rw [getKey_rename_single_other payload _ _ _ (by decide) (by decide), hT]
  simp only [OpenAIProvider.chat, hN, Bool.false_eq_true, if_false, h1, pyMul2]
  rfl

theorem completions_run (self : OpenAIProvider)
    (send : WireCall → ProviderChatResponse)
    (payload : Payload) (t : ℚ) (pv : JValue)
    (hN : hasKey payload "n" = false)
    (hT : getKey payload "temperature" = some (JValue.num t))
    (hP : getKey payload "prompt" = some pv) :
    OpenAIProvider.completions self send payload =
      { sent := [completionsWireOf self payload t pv]
        result := .ok (completionsNormalize self.config.route_type
          (send (completionsWireOf self payload t pv))) } := by
  have h1 : getKey (rename_payload_keys payload [("candidate_count", "n")]) "temperature"
      = some (JValue.num t) := by
    rw [getKey_rename_single_other payload _ _ _ (by decide) (by decide), hT]
  have h2 : getKey
      (dictInsert (rename_payload_keys payload [("candidate_count", "n")])
        "temperature" (JValue.num (2 * t))) "prompt" = some pv := by
    rw [getKey_dictInsert_ne _ _ _ _ (by decide),
      getKey_rename_single_other payload _ _ _ (by decide) (by decide), hP]
  have h3 := popKey_eq_of_getKey _ "prompt" pv h2
  simp only [OpenAIProvider.completions, hN, Bool.false_eq_true, if_false, h1, pyMul2, h3]
  rfl

theorem embeddings_run (self : OpenAIProvider)
    (send : WireCall → ProviderEmbeddingsResponse) (payload : Payload) :
    OpenAIProvider.embeddings self send payload =
      { sent := [embeddingsWireOf self payload]
        result := .ok (embeddingsNormalize self.config.route_type
          (send (embeddingsWireOf self payload))) } := rfl

theorem chat_reject_n (self : OpenAIProvider) (send : WireCall → ProviderChatResponse)
    (payload : Payload) (h : hasKey payload "n" = true) :
    OpenAIProvider.chat self send payload =
      { sent := []
        result := .error (.httpException 400
          "Invalid parameter `n`. Use `candidate_count` instead.") } := by
  simp [OpenAIProvider.chat, h]

theorem completions_reject_n (self : OpenAIProvider)
    (send : WireCall → ProviderChatResponse) (payload : Payload)
    (h : hasKey payload "n" = true) :
    OpenAIProvider.completions self send payload =
      { sent := []
        result := .error (.httpException 400
          "Invalid parameter `n`. Use `candidate_count` instead.") } := by
  simp [OpenAIProvider.completions, h]

theorem chat_no_temperature (self : OpenAIProvider)
    (send : WireCall → ProviderChatResponse) (payload : Payload)
    (hN : hasKey payload "n" = false)
    (hT : getKey payload "temperature" = none) :
    OpenAIProvider.chat self send payload =
      { sent := [], result := .error (.keyError "temperature") } := by
  have h1 : getKey (rename_payload_keys payload [("candidate_count", "n")]) "temperature"
      = none := by
    rw [getKey_rename_single_other payload _ _ _ (by decide) (by decide), hT]
  simp [OpenAIProvider.chat, hN, h1]

theorem completions_no_temperature (self : OpenAIProvider)
    (send : WireCall → ProviderChatResponse) (payload : Payload)
    (hN : hasKey payload "n" = false)
    (hT : getKey payload "temperature" = none) :
    OpenAIProvider.completions self send payload =
      { sent := [], result := .error (.keyError "temperature") } := by
  have h1 : getKey (rename_payload_keys payload [("candidate_count", "n")]) "temperature"
      = none := by
    rw [getKey_rename_single_other payload _ _ _ (by decide) (by decide), hT]
  simp [OpenAIProvider.completions, hN, h1]

theorem completions_no_prompt (self : OpenAIProvider)
    (send : WireCall → ProviderChatResponse) (payload : Payload) (t : ℚ)
    (hN : hasKey payload "n" = false)
    (hT : getKey payload "temperature" = some (JValue.num t))
    (hP : getKey payload "prompt" = none) :
    OpenAIProvider.completions self send payload =
      { sent := [], result := .error (.keyError "prompt") } := by
  have h1 : getKey (rename_payload_keys payload [("candidate_count", "n")]) "temperature"
      = some (JValue.num t) := by
    rw [getKey_rename_single_other payload _ _ _ (by decide) (by decide), hT]
  have h2 : getKey
      (dictInsert (rename_payload_keys payload [("candidate_count", "n")])
        "temperature" (JValue.num (2 * t))) "prompt" = none := by
    rw [getKey_dictInsert_ne _ _ _ _ (by decide),
      getKey_rename_single_other payload _ _ _ (by decide) (by decide), hP]
  simp only [OpenAIProvider.completions, hN, Bool.false_eq_true, if_false, h1, pyMul2,
    popKey_eq_none _ _ h2]

theorem renameKey_eq_self (mapping : List (String × String)) (k : String)
    (h : ∀ m ∈ mapping, m.1 ≠ k) : renameKey mapping k = k := by
  induction mapping with
  | nil => rfl
  | cons m rest ih =>
    rw [renameKey, if_neg (h m (by simp))]
    exact ih (fun m2 hm2 => h m2 (by simp [hm2]))

theorem rename_preserves_unmapped (q : Payload) (mapping : List (String × String)) :
    ∀ kv ∈ q, (∀ m ∈ mapping, m.1 ≠ kv.1) → kv ∈ rename_payload_keys q mapping := by
  intro kv hkv hm
  refine List.mem_map.mpr ⟨kv, hkv, ?_⟩
  rw [renameKey_eq_self mapping kv.1 hm]

/-! The claims. -/

/-- C1: for every chat, completions, or embeddings call, every wire payload
handed to the Request Sender has its `model` field equal to the model name
stored in the adapter's Route Configuration.  Canonical requests carry no
provider identity, so the serialized mapping has no `model` key (the
hypothesis); under it the caller can never determine the wire `model`
value. -/
theorem wire_model_always_from_config (self : OpenAIProvider)
    (sendChat sendCompl : WireCall → ProviderChatResponse)
    (sendEmb : WireCall → ProviderEmbeddingsResponse) (payload : Payload)
    (hModel : hasKey payload "model" = false) :
    (∀ w ∈ (OpenAIProvider.chat self sendChat payload).sent,
      getKey w.payload "model" = some (.str self.config.model.name)) ∧
    (∀ w ∈ (OpenAIProvider.completions self sendCompl payload).sent,
      getKey w.payload "model" = some (.str self.config.model.name)) ∧
    (∀ w ∈ (OpenAIProvider.embeddings self sendEmb payload).sent,
      getKey w.payload "model" = some (.str self.config.model.name)) := by
  rw [hasKey_eq_false_iff] at hModel
  have hren : getKey (rename_payload_keys payload [("candidate_count", "n")]) "model"
      = none := by
    rw [getKey_rename_single_other payload _ _ _ (by decide) (by decide), hModel]
  have hrenE : getKey (rename_payload_keys payload [("text", "input")]) "model"
      = none := by
    rw [getKey_rename_single_other payload _ _ _ (by decide) (by decide), hModel]
  refine ⟨?_, ?_, ?_⟩
  · simp only [OpenAIProvider.chat]
    split
    · intro w hw
      simp at hw
    · split
      · intro w hw
        simp at hw
      · split
        · intro w hw
          simp at hw
        · intro w hw
          simp only [List.mem_singleton] at hw
          subst hw
          exact getKey_dictUpdate_singleton_self _ _ _
            (by rw [getKey_dictInsert_ne _ _ _ _ (by decide), hren])
  · simp only [OpenAIProvider.completions]
    split
    · intro w hw
      simp at hw
    · split
      · intro w hw
        simp at hw
      · split
        · intro w hw
          simp at hw
        · split
          · intro w hw
            simp at hw
          · intro w hw
            simp only [List.mem_singleton] at hw
            subst hw
            rename_i t t2 hmul pv p3 hpop
            have hp3 := (popKey_some_elim _ _ _ _ hpop).2
            refine getKey_dictUpdate_singleton_self _ _ _ ?_
            rw [getKey_dictInsert_ne _ _ _ _ (by decide), hp3,
              getKey_eraseKey_ne _ _ _ (by decide),
              getKey_dictInsert_ne _ _ _ _ (by decide), hren]
  · intro w hw
    simp only [OpenAIProvider.embeddings, List.mem_singleton] at hw
    subst hw
    exact getKey_dictUpdate_singleton_self _ _ _ hrenE

/-- Witness for C1 at a concrete provider, payload and senders. -/
theorem wire_model_always_from_config_witness :
    hasKey exCompletionsPayload "model" = false ∧
    ((∀ w ∈ (OpenAIProvider.chat exProvider exChatSend exCompletionsPayload).sent,
      getKey w.payload "model" = some (.str "gpt-4o-mini")) ∧
    (∀ w ∈ (OpenAIProvider.completions exProvider exChatSend exCompletionsPayload).sent,
      getKey w.payload "model" = some (.str "gpt-4o-mini")) ∧
    (∀ w ∈ (OpenAIProvider.embeddings exProvider exEmbeddingsSend exCompletionsPayload).sent,
      getKey w.payload "model" = some (.str "gpt-4o-mini"))) :=
  ⟨rfl, wire_model_always_from_config exProvider exChatSend exChatSend
    exEmbeddingsSend exCompletionsPayload rfl⟩

/-- C2: any chat or completions request whose serialized mapping contains a
key named `n` fails with HTTPException 400 (the InvalidParameter error) and
the Request Sender is never invoked. -/
theorem literal_n_rejected (self : OpenAIProvider)
    (sendChat sendCompl : WireCall → ProviderChatResponse) (payload : Payload)
    (h : hasKey payload "n" = true) :
    OpenAIProvider.chat self sendChat payload =
      { sent := []
        result := .error (.httpException 400
          "Invalid parameter `n`. Use `candidate_count` instead.") } ∧
    OpenAIProvider.completions self sendCompl payload =
      { sent := []
        result := .error (.httpException 400
          "Invalid parameter `n`. Use `candidate_count` instead.") } :=
  ⟨by simp [OpenAIProvider.chat, h], by simp [OpenAIProvider.completions, h]⟩

/-- Witness for C2 at a concrete payload carrying `n`. -/
theorem literal_n_rejected_witness :
    hasKey [(("n" : String), JValue.num 1)] "n" = true ∧
    (OpenAIProvider.chat exProvider exChatSend [("n", JValue.num 1)]).sent = [] ∧
    (OpenAIProvider.completions exProvider exChatSend [("n", JValue.num 1)]).sent = [] := by
  have h := literal_n_rejected exProvider exChatSend exChatSend
    [("n", JValue.num 1)] rfl
  exact ⟨rfl, by rw [h.1], by rw [h.2]⟩

/-- C3: for every completions request that passes the earlier steps (no
literal `n`, a numeric temperature, a prompt, distinct keys as in any
serialized dict), exactly one wire call is made; its path is
`chat/completions`, its payload no longer contains `prompt` and instead
contains `messages = [{role: "user", content: <prompt>}]`, and each
returned candidate's `text` is the corresponding choice's message content
of the chat-shaped provider response. -/
theorem completions_prompt_becomes_chat_message (self : OpenAIProvider)
    (send : WireCall → ProviderChatResponse) (payload : Payload) (t : ℚ) (pv : JValue)
    (hNd : (payload.map Prod.fst).Nodup)
    (hN : hasKey payload "n" = false)
    (hT : getKey payload "temperature" = some (JValue.num t))
    (hP : getKey payload "prompt" = some pv) :
    ∃ w, (OpenAIProvider.completions self send payload).sent = [w] ∧
      w.path = "chat/completions" ∧
      getKey w.payload "prompt" = none ∧
      getKey w.payload "messages" =
        some (.arr [.obj [("role", .str "user"), ("content", pv)]]) ∧
      (OpenAIProvider.completions self send payload).result =
        .ok (completionsNormalize self.config.route_type (send w)) ∧
      (completionsNormalize self.config.route_type (send w)).candidates =
        (send w).choices.map (fun c =>
          { text := c.message.content
            metadata := { finish_reason := c.finish_reason } }) := by
  have hN' := (hasKey_eq_false_iff payload "n").mp hN
  have hNd1 : ((rename_payload_keys payload [("candidate_count", "n")]).map Prod.fst).Nodup :=
    nodup_keys_rename_single payload _ _ hN' hNd
  have hNd2 := nodup_keys_dictInsert _ "temperature" (JValue.num (2 * t)) hNd1
  have hNd3 := nodup_keys_eraseKey _ "prompt" hNd2
  have hNd4 := nodup_keys_dictInsert _ "messages"
    (JValue.arr [JValue.obj [("role", JValue.str "user"), ("content", pv)]]) hNd3
  refine ⟨completionsWireOf self payload t pv, ?_, rfl, ?_, ?_, ?_, rfl⟩
  · rw [completions_run self send payload t pv hN hT hP]
  · show getKey (dictUpdate _ _) "prompt" = none
    rw [getKey_dictUpdate_singleton_ne _ _ _ hNd4 _ (by decide),
      getKey_dictInsert_ne _ _ _ _ (by decide),
      getKey_eraseKey_self _ _ hNd2]
  · show getKey (dictUpdate _ _) "messages" = _
    rw [getKey_dictUpdate_singleton_ne _ _ _ hNd4 _ (by decide),
      getKey_dictInsert_self]
  · rw [completions_run self send payload t pv hN hT hP]

/-- Witness for C3 at the spec's example prompt "Say hi" and the fixed
provider response. -/
theorem completions_prompt_becomes_chat_message_witness :
    (exCompletionsPayload.map Prod.fst).Nodup ∧
    hasKey exCompletionsPayload "n" = false ∧
    getKey exCompletionsPayload "temperature" = some (JValue.num (1 / 2)) ∧
    getKey exCompletionsPayload "prompt" = some (.str "Say hi") ∧
    ∃ w, (OpenAIProvider.completions exProvider exChatSend exCompletionsPayload).sent = [w] ∧
      w.path = "chat/completions" ∧
      getKey w.payload "prompt" = none ∧
      getKey w.payload "messages" =
        some (.arr [.obj [("role", .str "user"), ("content", .str "Say hi")]]) ∧
      (OpenAIProvider.completions exProvider exChatSend exCompletionsPayload).result = .ok
        { candidates := [{ text := "hi", metadata := { finish_reason := "stop" } }]
          metadata := { input_tokens := 13, output_tokens := 7, total_tokens := 20,
                        model := "gpt-x", route_type := .chat } } := by
  obtain ⟨w, h1, h2, h3, h4, h5, h6⟩ :=
    completions_prompt_becomes_chat_message exProvider exChatSend exCompletionsPayload
      (1 / 2) (.str "Say hi") (by decide) rfl rfl rfl
  refine ⟨by decide, rfl, rfl, rfl, w, h1, h2, h3, h4, ?_⟩
  rw [h5]
  rfl

/-- C4: the chat operation emits exactly one candidate per entry of the
provider's `choices` list, in order, copying role, content and finish
reason, and a metadata block built from the provider's usage, echoed model
name and the configured route type. -/
theorem chat_normalization_exact (self : OpenAIProvider)
    (send : WireCall → ProviderChatResponse) (payload : Payload) (t : ℚ)
    (hN : hasKey payload "n" = false)
    (hT : getKey payload "temperature" = some (JValue.num t)) :
    ∃ w, (OpenAIProvider.chat self send payload).sent = [w] ∧
      (OpenAIProvider.chat self send payload).result = .ok
        { candidates := (send w).choices.map (fun c =>
            { message := { role := c.message.role, content := c.message.content }
              metadata := { finish_reason := c.finish_reason } })
          metadata :=
            { input_tokens := (send w).usage.prompt_tokens
              output_tokens := (send w).usage.completion_tokens
              total_tokens := (send w).usage.total_tokens
              model := (send w).model
              route_type := self.config.route_type } } := by
  refine ⟨chatWireOf self payload t, ?_, ?_⟩
  · rw [chat_run self send payload t hN hT]
  · rw [chat_run self send payload t hN hT]
    rfl

/-- Witness for C4: the spec's fixed one-choice provider response yields
exactly the canonical response given in the spec. -/
theorem chat_normalization_exact_witness :
    hasKey exChatPayload "n" = false ∧
    getKey exChatPayload "temperature" = some (JValue.num (1 / 2)) ∧
    ∃ w, (OpenAIProvider.chat exProvider exChatSend exChatPayload).sent = [w] ∧
      (OpenAIProvider.chat exProvider exChatSend exChatPayload).result = .ok
        { candidates := [{ message := { role := "assistant", content := "hi" }
                           metadata := { finish_reason := "stop" } }]
          metadata := { input_tokens := 13, output_tokens := 7, total_tokens := 20,
                        model := "gpt-x", route_type := .chat } } := by
  obtain ⟨w, h1, h2⟩ :=
    chat_normalization_exact exProvider exChatSend exChatPayload (1 / 2) rfl rfl
  refine ⟨rfl, rfl, w, h1, ?_⟩
  rw [h2]
  rfl

/-- C5: every wire payload sent by a chat or completions call whose request
carries the numeric temperature `t` has temperature exactly `2 * t`.  The
rational `t` is arbitrary — in the canonical [0,1] range or not — so the
rescale is a fixed doubling with no clamping and no rejection. -/
theorem temperature_rescaled_not_clamped (self : OpenAIProvider)
    (sendChat sendCompl : WireCall → ProviderChatResponse) (payload : Payload) (t : ℚ)
    (hNd : (payload.map Prod.fst).Nodup)
    (hT : getKey payload "temperature" = some (JValue.num t)) :
    (∀ w ∈ (OpenAIProvider.chat self sendChat payload).sent,
      getKey w.payload "temperature" = some (JValue.num (2 * t))) ∧
    (∀ w ∈ (OpenAIProvider.completions self sendCompl payload).sent,
      getKey w.payload "temperature" = some (JValue.num (2 * t))) := by
  by_cases hN : hasKey payload "n" = true
  · constructor
    · rw [chat_reject_n self sendChat payload hN]
      intro w hw
      simp at hw
    · rw [completions_reject_n self sendCompl payload hN]
      intro w hw
      simp at hw
  · have hN' : hasKey payload "n" = false := by
      cases h : hasKey payload "n"
      · rfl
      · exact absurd h hN
    have hNz := (hasKey_eq_false_iff payload "n").mp hN'
    have hNd1 : ((rename_payload_keys payload [("candidate_count", "n")]).map Prod.fst).Nodup :=
      nodup_keys_rename_single payload _ _ hNz hNd
    have hNd2 := nodup_keys_dictInsert _ "temperature" (JValue.num (2 * t)) hNd1
    constructor
    · rw [chat_run self sendChat payload t hN' hT]
      intro w hw
      simp only [List.mem_singleton] at hw
      subst hw
      show getKey (dictUpdate _ _) "temperature" = _
      rw [getKey_dictUpdate_singleton_ne _ _ _ hNd2 _ (by decide),
        getKey_dictInsert_self]
    · cases hP : getKey payload "prompt" with
      | none =>
        rw [completions_no_prompt self sendCompl payload t hN' hT hP]
        intro w hw
        simp at hw
      | some pv =>
        have hNd3 := nodup_keys_eraseKey _ "prompt" hNd2
        have hNd4 := nodup_keys_dictInsert _ "messages"
          (JValue.arr [JValue.obj [("role", JValue.str "user"), ("content", pv)]]) hNd3
        rw [completions_run self sendCompl payload t pv hN' hT hP]
        intro w hw
        simp only [List.mem_singleton] at hw
        subst hw
        show getKey (dictUpdate _ _) "temperature" = _
        rw [getKey_dictUpdate_singleton_ne _ _ _ hNd4 _ (by decide),
          getKey_dictInsert_ne _ _ _ _ (by decide),
          getKey_eraseKey_ne _ _ _ (by decide),
          getKey_dictInsert_self]

/-- Witness for C5 at temperature 1/2: the wire temperature is 2 * (1/2). -/
theorem temperature_rescaled_not_clamped_witness :
    (exCompletionsPayload.map Prod.fst).Nodup ∧
    getKey exCompletionsPayload "temperature" = some (JValue.num (1 / 2)) ∧
    ((∀ w ∈ (OpenAIProvider.chat exProvider exChatSend exCompletionsPayload).sent,
      getKey w.payload "temperature" = some (JValue.num (2 * (1 / 2)))) ∧
    (∀ w ∈ (OpenAIProvider.completions exProvider exChatSend exCompletionsPayload).sent,
      getKey w.payload "temperature" = some (JValue.num (2 * (1 / 2))))) :=
  ⟨by decide, rfl,
    temperature_rescaled_not_clamped exProvider exChatSend exChatSend
      exCompletionsPayload (1 / 2) (by decide) rfl⟩

/-- Counterexample to C6 as stated: `temperature` is not listed in the
renaming table (the table leaves it untouched), yet its value in the wire
payload is 2 * (1/2), not the canonical 1/2 — the rescale step rewrites a
key outside the renaming table, so not every such key is carried unchanged
in value. -/
theorem unmapped_key_value_changed_counterexample :
    renameKey [("candidate_count", "n")] "temperature" = "temperature" ∧
    getKey exChatPayload "temperature" = some (JValue.num (1 / 2)) ∧
    (OpenAIProvider.chat exProvider exChatSend exChatPayload).sent.map
      (fun w => getKey w.payload "temperature") = [some (JValue.num (2 * (1 / 2)))] ∧
    2 * ((1 : ℚ) / 2) ≠ 1 / 2 :=
  ⟨rfl, rfl, rfl, by norm_num⟩

/-- C6 (amended): for every valid chat request with `candidate_count = k`
the wire payload contains `n = k` and never `candidate_count`; every key
not in the renaming table other than `temperature` (whose value the rescale
step doubles) and the prepended `model` is carried into the wire payload
unchanged in name and value; and the Key-Renaming Utility itself leaves
entries with unmapped keys entirely untouched. -/
theorem candidate_count_renamed_to_n (self : OpenAIProvider)
    (send : WireCall → ProviderChatResponse) (payload : Payload) (t : ℚ) (kval : JValue)
    (hNd : (payload.map Prod.fst).Nodup)
    (hN : hasKey payload "n" = false)
    (hT : getKey payload "temperature" = some (JValue.num t))
    (hK : getKey payload "candidate_count" = some kval) :
    ∃ w, (OpenAIProvider.chat self send payload).sent = [w] ∧
      getKey w.payload "n" = some kval ∧
      getKey w.payload "candidate_count" = none ∧
      (∀ key, key ≠ "candidate_count" → key ≠ "n" → key ≠ "temperature" →
        key ≠ "model" → getKey w.payload key = getKey payload key) ∧
      (∀ (q : Payload) (mapping : List (String × String)),
        ∀ kv ∈ q, (∀ m ∈ mapping, m.1 ≠ kv.1) →
          kv ∈ rename_payload_keys q mapping) := by
  have hN' := (hasKey_eq_false_iff payload "n").mp hN
  have hNd1 : ((rename_payload_keys payload [("candidate_count", "n")]).map Prod.fst).Nodup :=
    nodup_keys_rename_single payload _ _ hN' hNd
  have hNd2 := nodup_keys_dictInsert _ "temperature" (JValue.num (2 * t)) hNd1
  refine ⟨chatWireOf self payload t, ?_, ?_, ?_, ?_, rename_preserves_unmapped⟩
  · rw [chat_run self send payload t hN hT]
  · show getKey (dictUpdate _ _) "n" = _
    rw [getKey_dictUpdate_singleton_ne _ _ _ hNd2 _ (by decide),
      getKey_dictInsert_ne _ _ _ _ (by decide),
      getKey_rename_single_target payload _ _ hN', hK]
  · show getKey (dictUpdate _ _) "candidate_count" = none
    rw [getKey_dictUpdate_singleton_ne _ _ _ hNd2 _ (by decide),
      getKey_dictInsert_ne _ _ _ _ (by decide),
      getKey_rename_single_source payload _ _ (by decide)]
  · intro key hcc hn htemp hmodel
    show getKey (dictUpdate _ _) key = _
    rw [getKey_dictUpdate_singleton_ne _ _ _ hNd2 _ hmodel,
      getKey_dictInsert_ne _ _ _ _ htemp,
      getKey_rename_single_other payload _ _ _ hcc hn]

/-- Witness for the amended C6 at candidate_count = 2. -/
theorem candidate_count_renamed_to_n_witness :
    (exChatPayload.map Prod.fst).Nodup ∧
    hasKey exChatPayload "n" = false ∧
    getKey exChatPayload "temperature" = some (JValue.num (1 / 2)) ∧
    getKey exChatPayload "candidate_count" = some (JValue.num 2) ∧
    ∃ w, (OpenAIProvider.chat exProvider exChatSend exChatPayload).sent = [w] ∧
      getKey w.payload "n" = some (JValue.num 2) ∧
      getKey w.payload "candidate_count" = none ∧
      getKey w.payload "messages" = getKey exChatPayload "messages" := by
  obtain ⟨w, h1, h2, h3, h4, h5⟩ :=
    candidate_count_renamed_to_n exProvider exChatSend exChatPayload (1 / 2)
      (JValue.num 2) (by decide) rfl rfl rfl
  exact ⟨by decide, rfl, rfl, rfl, w, h1, h2, h3,
    h4 "messages" (by decide) (by decide) (by decide) (by decide)⟩

/-- C7: every embeddings wire payload contains `input` (holding the
canonical `text` value) and never `text`; and embeddings payloads get
neither the temperature rescale nor the `n` check — the operation always
hands exactly one wire call to the Request Sender, with `temperature` and
`n` looked up unchanged from the canonical payload. -/
theorem embeddings_text_renamed_to_input (self : OpenAIProvider)
    (send : WireCall → ProviderEmbeddingsResponse) (payload : Payload) (tv : JValue)
    (hNd : (payload.map Prod.fst).Nodup)
    (hText : getKey payload "text" = some tv)
    (hInput : hasKey payload "input" = false) :
    ∃ w, (OpenAIProvider.embeddings self send payload).sent = [w] ∧
      getKey w.payload "input" = some tv ∧
      getKey w.payload "text" = none ∧
      getKey w.payload "temperature" = getKey payload "temperature" ∧
      getKey w.payload "n" = getKey payload "n" := by
  have hIn := (hasKey_eq_false_iff payload "input").mp hInput
  have hNd1 : ((rename_payload_keys payload [("text", "input")]).map Prod.fst).Nodup :=
    nodup_keys_rename_single payload _ _ hIn hNd
  refine ⟨embeddingsWireOf self payload, rfl, ?_, ?_, ?_, ?_⟩
  · show getKey (dictUpdate _ _) "input" = _
    rw [getKey_dictUpdate_singleton_ne _ _ _ hNd1 _ (by decide),
      getKey_rename_single_target payload _ _ hIn, hText]
  · show getKey (dictUpdate _ _) "text" = none
    rw [getKey_dictUpdate_singleton_ne _ _ _ hNd1 _ (by decide),
      getKey_rename_single_source payload _ _ (by decide)]
  · show getKey (dictUpdate _ _) "temperature" = _
    rw [getKey_dictUpdate_singleton_ne _ _ _ hNd1 _ (by decide),
      getKey_rename_single_other payload _ _ _ (by decide) (by decide)]
  · show getKey (dictUpdate _ _) "n" = _
    rw [getKey_dictUpdate_singleton_ne _ _ _ hNd1 _ (by decide),
      getKey_rename_single_other payload _ _ _ (by decide) (by decide)]

/-- Witness for C7 at the concrete embeddings request. -/
theorem embeddings_text_renamed_to_input_witness :
    (exEmbeddingsPayload.map Prod.fst).Nodup ∧
    getKey exEmbeddingsPayload "text" = some (.str "hello world") ∧
    hasKey exEmbeddingsPayload "input" = false ∧
    ∃ w, (OpenAIProvider.embeddings exProvider exEmbeddingsSend exEmbeddingsPayload).sent = [w] ∧
      getKey w.payload "input" = some (.str "hello world") ∧
      getKey w.payload "text" = none := by
  obtain ⟨w, h1, h2, h3, h4, h5⟩ :=
    embeddings_text_renamed_to_input exProvider exEmbeddingsSend exEmbeddingsPayload
      (.str "hello world") (by decide) rfl rfl
  exact ⟨by decide, rfl, rfl, w, h1, h2, h3⟩

/-- C8: for every provider embeddings response, whatever usage it reports,
the canonical metadata has output_tokens 0, with input_tokens and
total_tokens taken from the provider's usage block (and the vectors carried
over in provider order). -/
theorem embeddings_output_tokens_always_zero (self : OpenAIProvider)
    (send : WireCall → ProviderEmbeddingsResponse) (payload : Payload) :
    ∃ w, (OpenAIProvider.embeddings self send payload).sent = [w] ∧
      (OpenAIProvider.embeddings self send payload).result = .ok
        { embeddings := (send w).data.map (fun d => d.embedding)
          metadata :=
            { input_tokens := (send w).usage.prompt_tokens
              output_tokens := 0
              total_tokens := (send w).usage.total_tokens
              model := (send w).model
              route_type := self.config.route_type } } :=
  ⟨embeddingsWireOf self payload, rfl, rfl⟩

/-- Counterexample to C9 as stated: with an organization id that is present
but empty (`some ""`), construction succeeds yet stores no
`OpenAI-Organization` header — the source's walrus `if org := ...` tests
truthiness, not presence. -/
theorem org_header_truthiness_counterexample :
    exEmptyOrgRouteConfig.model.config = some (.openai
      { openai_api_key := "k", openai_organization := some "",
        openai_api_base := "b" }) ∧
    OpenAIProvider.init exEmptyOrgRouteConfig = .ok
      { config := exEmptyOrgRouteConfig
        openai_config :=
          { openai_api_key := "k", openai_organization := some "",
            openai_api_base := "b" }
        headers := [("Authorization", "Bearer k")]
        base_url := "b" } ∧
    [(("Authorization" : String), ("Bearer k" : String))].any
      (fun h => h.1 = "OpenAI-Organization") = false :=
  ⟨rfl, rfl, rfl⟩

/-- C9 (amended): construction fails with the TypeError (the spec's
InvalidConfiguration) exactly when the provider-specific config is absent
or not the OpenAI variant; on the OpenAI variant it succeeds and stores the
base URL, an `Authorization: Bearer <key>` header, and an
`OpenAI-Organization` header exactly when a non-empty organization id is
present. -/
theorem construction_checks_config_variant (config : RouteConfig) :
    ((∀ oc, config.model.config ≠ some (.openai oc)) →
      OpenAIProvider.init config = .error (.typeError "Invalid config type")) ∧
    (∀ oc, config.model.config = some (.openai oc) →
      ∃ self, OpenAIProvider.init config = .ok self ∧
        self.base_url = oc.openai_api_base ∧
        getHeader self.headers "Authorization" =
          some ("Bearer " ++ oc.openai_api_key) ∧
        (∀ org, oc.openai_organization = some org → org ≠ "" →
          getHeader self.headers "OpenAI-Organization" = some org) ∧
        ((oc.openai_organization = none ∨ oc.openai_organization = some "") →
          getHeader self.headers "OpenAI-Organization" = none)) := by
  constructor
  · intro h
    cases hc : config.model.config with
    | none => simp [OpenAIProvider.init, hc]
    | some pc =>
      cases pc with
      | openai oc => exact absurd hc (h oc)
      | otherProvider p => simp [OpenAIProvider.init, hc]
  · intro oc hc
    refine ⟨{ config := config
              openai_config := oc
              headers := ("Authorization", "Bearer " ++ oc.openai_api_key) ::
                (match oc.openai_organization with
                  | some org => if org = "" then [] else [("OpenAI-Organization", org)]
                  | none => [])
              base_url := oc.openai_api_base }, ?_, rfl, rfl, ?_, ?_⟩
    · simp [OpenAIProvider.init, hc]
    · intro org ho hne
      simp only [ho]
      rw [if_neg hne]
      simp [getHeader]
    · rintro (ho | ho) <;> simp [ho, getHeader]

/-- Witness for the amended C9 at the concrete valid configuration. -/
theorem construction_checks_config_variant_witness :
    exRouteConfig.model.config = some (.openai
      { openai_api_key := "sk-test", openai_organization := none,
        openai_api_base := "https://api.openai.com/v1" }) ∧
    ∃ self, OpenAIProvider.init exRouteConfig = .ok self ∧
      self.base_url = "https://api.openai.com/v1" ∧
      getHeader self.headers "Authorization" = some "Bearer sk-test" ∧
      getHeader self.headers "OpenAI-Organization" = none := by
  obtain ⟨s, h1, h2, h3, h4, h5⟩ :=
    (construction_checks_config_variant exRouteConfig).2
      { openai_api_key := "sk-test", openai_organization := none
        openai_api_base := "https://api.openai.com/v1" } rfl
  exact ⟨rfl, s, h1, h2, h3, h5 (Or.inl rfl)⟩

/-- Counterexample to C10 as stated: a serialized mapping with no
`temperature` key but carrying `n` fails with the HTTPException of the `n`
check, not with a key-lookup error. -/
theorem missing_temperature_counterexample :
    hasKey [(("n" : String), JValue.num 1)] "temperature" = false ∧
    (OpenAIProvider.chat exProvider exChatSend [("n", JValue.num 1)]).result =
      .error (.httpException 400
        "Invalid parameter `n`. Use `candidate_count` instead.") ∧
    raisedKeyError
      (OpenAIProvider.chat exProvider exChatSend [("n", JValue.num 1)]).result
      = false :=
  ⟨rfl, rfl, rfl⟩

/-- C10 (amended): every chat or completions request whose serialized
mapping contains neither `temperature` nor `n` fails with the Python
KeyError for `temperature` — the unguarded read during rescaling makes the
nominally optional sampling parameter effectively mandatory — and no
network call is made. -/
theorem missing_temperature_is_keyerror (self : OpenAIProvider)
    (sendChat sendCompl : WireCall → ProviderChatResponse) (payload : Payload)
    (hN : hasKey payload "n" = false)
    (hT : hasKey payload "temperature" = false) :
    OpenAIProvider.chat self sendChat payload =
      { sent := [], result := .error (.keyError "temperature") } ∧
    OpenAIProvider.completions self sendCompl payload =
      { sent := [], result := .error (.keyError "temperature") } :=
  have hT' := (hasKey_eq_false_iff payload "temperature").mp hT
  ⟨chat_no_temperature self sendChat payload hN hT',
    completions_no_temperature self sendCompl payload hN hT'⟩

/-- Witness for the amended C10 at a request carrying only a prompt. -/
theorem missing_temperature_is_keyerror_witness :
    hasKey [(("prompt" : String), JValue.str "x")] "n" = false ∧
    hasKey [(("prompt" : String), JValue.str "x")] "temperature" = false ∧
    (OpenAIProvider.chat exProvider exChatSend [("prompt", JValue.str "x")]) =
      { sent := [], result := .error (.keyError "temperature") } ∧
    (OpenAIProvider.completions exProvider exChatSend [("prompt", JValue.str "x")]) =
      { sent := [], result := .error (.keyError "temperature") } := by
  have h := missing_temperature_is_keyerror exProvider exChatSend exChatSend
    [("prompt", JValue.str "x")] rfl rfl
  exact ⟨rfl, rfl, h.1, h.2⟩

end MlflowGateway
